import Mathlib

/-!
# Shallow embedding of the shipment-tracking core

This file embeds, in Lean 4, the three core components of the
`shipment-tracking` repository that the verified claims are about:

* the Text Extractor (`GuideParser.detectImageType` / `GuideParser.extractData`),
* the Customer Resolver (`CustomerMatcher.findCustomer` and its three tiers),
* the Delivery Client (`WhatsAppSender`: circuit breaker, retry loop,
  `sendGuide`, `formatPhone`) together with `calculateBackoffDelay` from the
  retry configuration module.

JavaScript regular expressions used by the parser are modelled by a small
executable backtracking matcher (`RE`, `runRE`, `searchFrom`) whose semantics
follow the ECMAScript behaviour of the constructs actually used by the source:
ordered alternation, greedy quantifiers with backtracking, leftmost match,
numbered capture groups and word boundaries.  Repetition is primitive only
over single-character classes (every quantifier in the source applies to a
character class except one bounded `{1,3}` group, which is unrolled with
greedy options exactly as a backtracking engine would).
-/

namespace ShipTrack

/-! ## JavaScript character-level semantics -/

/-- JS `\w` (word character, used by `\b`): `[A-Za-z0-9_]`.  Note that in
JavaScript accented letters are *not* word characters. -/
def isWordChar (c : Char) : Bool :=
  (('A' ≤ c && c ≤ 'Z') || ('a' ≤ c && c ≤ 'z') || ('0' ≤ c && c ≤ '9') || c = '_')

/-- JS `\d`. -/
def isDigitChar (c : Char) : Bool := '0' ≤ c && c ≤ '9'

/-- JS `\\s`: ASCII whitespace plus the Unicode space characters recognised
by ECMAScript (NBSP, Ogham space mark, U+2000-U+200A, the line and paragraph
separators, narrow/medium/ideographic spaces and the BOM). -/
def isJsSpace (c : Char) : Bool :=
  c = ' ' || c = '\t' || c = '\n' || c = '\r' || c.toNat = 0x0b || c.toNat = 0x0c ||
  c.toNat = 0xa0 || c.toNat = 0x1680 ||
  (0x2000 ≤ c.toNat && c.toNat ≤ 0x200a) ||
  c.toNat = 0x2028 || c.toNat = 0x2029 || c.toNat = 0x202f || c.toNat = 0x205f ||
  c.toNat = 0x3000 || c.toNat = 0xfeff

/-- `String.prototype.toLowerCase` restricted to the Basic Latin and Latin-1
letters that occur in the modelled patterns and data (ASCII `A`–`Z` and the
Latin-1 uppercase letters `À`–`Þ` except `×`). -/
def jsToLower (c : Char) : Char :=
  if 'A' ≤ c && c ≤ 'Z' then Char.ofNat (c.toNat + 32)
  else if ('À' ≤ c && c ≤ 'Þ') && c ≠ '×' then Char.ofNat (c.toNat + 32)
  else c

/-- Lowercase a whole string the way `toLowerCase` does. -/
def jsLower (s : String) : String := String.mk (s.data.map jsToLower)

/-- A combining diacritical mark (U+0300–U+036F), removed by
`.normalize('NFD').replace(/[̀-ͯ]/g, '')`. -/
def isCombiningMark (c : Char) : Bool :=
  ('̀' : Char) ≤ c && c ≤ ('ͯ' : Char)

/-- The base letter of a precomposed Latin-1 / Latin Extended letter, i.e. the
first character of its NFD decomposition, for the letters relevant to Spanish
text (`á é í ó ú ñ ü` and their uppercase forms).  Other characters are left
unchanged. -/
def stripAccent (c : Char) : Char :=
  if c = 'á' || c = 'Á' || c = 'à' || c = 'À' || c = 'ä' || c = 'Ä' then
    (if c.toNat < 0xC0 + 32 then 'A' else 'a')
  else if c = 'é' || c = 'É' || c = 'è' || c = 'È' || c = 'ë' || c = 'Ë' then
    (if c.toNat < 0xC0 + 32 then 'E' else 'e')
  else if c = 'í' || c = 'Í' || c = 'ì' || c = 'Ì' || c = 'ï' || c = 'Ï' then
    (if c.toNat < 0xC0 + 32 then 'I' else 'i')
  else if c = 'ó' || c = 'Ó' || c = 'ò' || c = 'Ò' || c = 'ö' || c = 'Ö' then
    (if c.toNat < 0xC0 + 32 then 'O' else 'o')
  else if c = 'ú' || c = 'Ú' || c = 'ù' || c = 'Ù' || c = 'ü' || c = 'Ü' then
    (if c.toNat < 0xC0 + 32 then 'U' else 'u')
  else if c = 'ñ' then 'n'
  else if c = 'Ñ' then 'N'
  else c

/-- `normalizeText` from `GuideParser.extractData` / the city scan:
`str.normalize('NFD').replace(/[̀-ͯ]/g, '').toLowerCase()`.
Precomposed accented letters decompose into base letter + combining mark; the
mark is dropped and the result lowercased. -/
def normalizeText (s : String) : String :=
  String.mk ((s.data.filter (fun c => !isCombiningMark c)).map
    (fun c => jsToLower (stripAccent c)))

/-- `String.prototype.trim` (JS): strip leading and trailing whitespace. -/
def jsTrim (s : String) : String :=
  String.mk (((s.data.dropWhile isJsSpace).reverse.dropWhile isJsSpace).reverse)

/-- Substring containment, i.e. JS `String.prototype.includes` and the SQL
pattern `LIKE '%needle%'`. -/
def containsSub (hay needle : String) : Bool :=
  decide (needle.data <:+: hay.data)

/-! ## A small backtracking regex engine -/

/-- Regular expressions, restricted to the constructs used by the source.
Repetition (`repCls`) is primitive over a character class with a lower bound
and an optional upper bound, matched greedily. -/
inductive RE where
  | eps : RE
  | cls : (Char → Bool) → RE
  | cat : RE → RE → RE
  | alt : RE → RE → RE
  | opt : RE → RE
  | repCls : (Char → Bool) → Nat → Option Nat → RE
  | group : Nat → RE → RE
  | wb : RE

/-- One way a regex can match at the current position: the consumed
characters, the remaining input, and the captures `(groupIndex, text)`. -/
structure MRes where
  consumed : List Char
  rest : List Char
  groups : List (Nat × List Char)
deriving Repr

/-- The character immediately to the left of the remaining input, given the
characters just consumed and the character that preceded them. -/
def lastOr (l : List Char) (d : Option Char) : Option Char :=
  match l.getLast? with
  | some c => some c
  | none => d

/-- `n, n-1, ..., lo` (empty if `n < lo`): the order in which a greedy bounded
repetition offers match lengths to the continuation. -/
def descRange (lo n : Nat) : List Nat :=
  (List.range (n + 1 - lo)).map (fun i => n - i)

/-- Length of the maximal prefix of `l` whose characters satisfy `p`, capped
at `hi`. -/
def runLen (p : Char → Bool) (hi : Nat) : List Char → Nat
  | [] => 0
  | c :: t => if p c then
      match hi with
      | 0 => 0
      | k + 1 => runLen p k t + 1
    else 0

/-- All ways `r` can match a prefix of `input`, in backtracking priority
order (the JS engine commits to the head).  `prev` is the character preceding
`input` (for word boundaries). -/
def runRE : RE → Option Char → List Char → List MRes
  | .eps, _, input => [⟨[], input, []⟩]
  | .cls p, _, input =>
      match input with
      | c :: rest => if p c then [⟨[c], rest, []⟩] else []
      | [] => []
  | .cat a b, prev, input =>
      (runRE a prev input).flatMap (fun ra =>
        (runRE b (lastOr ra.consumed prev) ra.rest).map (fun rb =>
          ⟨ra.consumed ++ rb.consumed, rb.rest, ra.groups ++ rb.groups⟩))
  | .alt a b, prev, input => runRE a prev input ++ runRE b prev input
  | .opt a, prev, input => runRE a prev input ++ [⟨[], input, []⟩]
  | .repCls p lo hi, _, input =>
      let n := runLen p (hi.getD input.length) input
      (descRange lo n).map (fun k => ⟨input.take k, input.drop k, []⟩)
  | .group i a, prev, input =>
      (runRE a prev input).map (fun r => ⟨r.consumed, r.rest, (i, r.consumed) :: r.groups⟩)
  | .wb, prev, input =>
      let left := match prev with | some c => isWordChar c | none => false
      let right := match input with | c :: _ => isWordChar c | [] => false
      if left ≠ right then [⟨[], input, []⟩] else []

/-- Leftmost match: try each start position in order and take the first
(highest-priority) match there, exactly as `RegExp.prototype.exec` does for a
non-global, non-sticky regex. -/
def searchFrom (r : RE) : Option Char → List Char → Option MRes
  | prev, input =>
    match runRE r prev input with
    | res :: _ => some res
    | _ =>
      match input with
      | [] => none
      | c :: rest => searchFrom r (some c) rest

/-- JS `regex.test(s)`. -/
def reTest (r : RE) (s : String) : Bool := (searchFrom r none s.data).isSome

/-- JS `s.match(regex)` giving the whole match `match[0]`. -/
def reMatch0 (r : RE) (s : String) : Option String :=
  (searchFrom r none s.data).map (fun m => String.mk m.consumed)

/-- JS `s.match(regex)` giving capture group `i` (`none` when the regex does
not match or the group did not participate). -/
def reGroup (r : RE) (i : Nat) (s : String) : Option String :=
  match searchFrom r none s.data with
  | none => none
  | some m =>
      match m.groups.find? (fun g => g.fst = i) with
      | some g => some (String.mk g.snd)
      | none => none

/-- Case-sensitive single character. -/
def chE (c : Char) : RE := .cls (fun x => x = c)

/-- Case-insensitive single character (the `/i` flag, via case folding with
`jsToLower`). -/
def chCI (c : Char) : RE := .cls (fun x => jsToLower x = jsToLower c)

/-- Case-sensitive literal string. -/
def strE (s : String) : RE := s.data.foldr (fun c acc => .cat (chE c) acc) .eps

/-- Case-insensitive literal string. -/
def strCI (s : String) : RE := s.data.foldr (fun c acc => .cat (chCI c) acc) .eps

/-- Ordered alternation of a non-empty list. -/
def altList : List RE → RE
  | [] => .eps
  | [r] => r
  | r :: t => .alt r (altList t)

/-- `\s*`. -/
def wsStar : RE := .repCls isJsSpace 0 none

end ShipTrack

namespace ShipTrack

/-! ## Character classes used by the parser patterns -/

/-- `[A-Z]` (case-sensitive). -/
def isUpperAZ (c : Char) : Bool := 'A' ≤ c && c ≤ 'Z'

/-- `[A-Z0-9]` under the `/i` flag: either case of a Latin letter, or a digit. -/
def isAlnumCI (c : Char) : Bool :=
  isDigitChar c || ('A' ≤ c && c ≤ 'Z') || ('a' ≤ c && c ≤ 'z')

/-- `[A-ZÁÉÍÓÚÑ]` and `[a-záéíóúñ]` under `/i` (they coincide after case
folding). -/
def isNameChar (c : Char) : Bool :=
  let l := jsToLower c
  ('a' ≤ l && l ≤ 'z') || l = 'á' || l = 'é' || l = 'í' || l = 'ó' || l = 'ú' || l = 'ñ'

/-- `[\s.-]` from the phone pattern. -/
def isPhoneSep (c : Char) : Bool := isJsSpace c || c = '.' || c = '-'

/-- `[:#]` (optional label separator). -/
def isColonHash (c : Char) : Bool := c = ':' || c = '#'

/-- `[^,\n]` from the address pattern. -/
def isNotCommaNl (c : Char) : Bool := !(c = ',' || c = '\n')

/-- Case-insensitive character set given by its lowercase members. -/
def clsCIof (cs : List Char) : RE := .cls (fun x => cs.contains (jsToLower x))

/-- Case-sensitive character set. -/
def clsEof (cs : List Char) : RE := .cls (fun x => cs.contains x)

/-! ## `GuideParser` regexes (src/unnamed/part_009) -/

/-- `inter\s*r[aá]pidisimo` (with `/i`). -/
def interRE : RE :=
  .cat (strCI "inter") (.cat wsStar (.cat (chCI 'r') (.cat (clsCIof ['a', 'á'])
    (strCI "pidisimo"))))

/-- `env[ií]a` (with `/i`). -/
def enviaRE : RE := .cat (strCI "env") (.cat (clsCIof ['i', 'í']) (chCI 'a'))

/-- `\btcc\b` (with `/i`). -/
def tccRE : RE := .cat .wb (.cat (strCI "tcc") .wb)

/-- `\b472\b`. -/
def c472RE : RE := .cat .wb (.cat (strE "472") .wb)

/-- `detectImageType`'s carrier pattern
`/servientrega|coordinadora|inter\s*r[aá]pidisimo|env[ií]a|colvanes|\btcc\b|\b472\b/i`. -/
def carrierRE : RE :=
  altList [strCI "servientrega", strCI "coordinadora", interRE, enviaRE,
    strCI "colvanes", tccRE, c472RE]

/-- `(?:gu[íi]a|tracking|numero|guia)` — case-sensitive in
`detectImageType`'s tracking pattern (that regex has no `/i` flag). -/
def trackingLabelE : RE :=
  altList [.cat (strE "gu") (.cat (clsEof ['í', 'i']) (strE "a")),
    strE "tracking", strE "numero", strE "guia"]

/-- `detectImageType`'s tracking pattern (case-sensitive):
`(?:gu[íi]a|tracking|numero|guia)\s*[:#]?\s*[A-Z0-9]{6,}|\b\d{10,15}\b|[A-Z]{2,3}\d{9,12}`. -/
def trackingDetectRE : RE :=
  altList [
    .cat trackingLabelE (.cat wsStar (.cat (.opt (.cls isColonHash))
      (.cat wsStar (.repCls (fun c => isUpperAZ c || isDigitChar c) 6 none)))),
    .cat .wb (.cat (.repCls isDigitChar 10 (some 15)) .wb),
    .cat (.repCls isUpperAZ 2 (some 3)) (.repCls isDigitChar 9 (some 12))]

/-- `/\d{1,2}:\d{2}\s*[ap]\.?m\.?/i`. -/
def timestampRE : RE :=
  .cat (.repCls isDigitChar 1 (some 2)) (.cat (chE ':')
    (.cat (.repCls isDigitChar 2 (some 2)) (.cat wsStar
      (.cat (clsCIof ['a', 'p']) (.cat (.opt (chE '.'))
        (.cat (chCI 'm') (.opt (chE '.'))))))))

/-- `/buenos\s*d[íi]as|buenas\s*tardes|buenas\s*noches|por\s*supuesto|ok\s*gracias/i`. -/
def chatWordsRE : RE :=
  altList [
    .cat (strCI "buenos") (.cat wsStar (.cat (chCI 'd') (.cat (clsCIof ['í', 'i']) (strCI "as")))),
    .cat (strCI "buenas") (.cat wsStar (strCI "tardes")),
    .cat (strCI "buenas") (.cat wsStar (strCI "noches")),
    .cat (strCI "por") (.cat wsStar (strCI "supuesto")),
    .cat (strCI "ok") (.cat wsStar (strCI "gracias"))]

/-- `/\bbarrio\b|tel\.|cel\.|avenida|calle\b|carrera\b/i`. -/
def addressIndRE : RE :=
  altList [
    .cat .wb (.cat (strCI "barrio") .wb),
    .cat (strCI "tel") (chE '.'),
    .cat (strCI "cel") (chE '.'),
    strCI "avenida",
    .cat (strCI "calle") .wb,
    .cat (strCI "carrera") .wb]

/-- `/\+57\s*3\d{9}/`. -/
def waHeaderRE : RE :=
  .cat (chE '+') (.cat (strE "57") (.cat wsStar
    (.cat (chE '3') (.repCls isDigitChar 9 (some 9)))))

/-- `/✓✓|✓/`. -/
def ticksRE : RE := .alt (strE "✓✓") (strE "✓")

/-! ## `GuideParser.detectImageType` -/

inductive ImageType where
  | carrier_guide : ImageType
  | whatsapp_chat : ImageType
  | unknown : ImageType
deriving DecidableEq, Repr

/-- `carrierPattern.test(text)`. -/
def hasCarrierToken (text : String) : Bool := reTest carrierRE text

/-- `trackingPattern.test(text)`. -/
def hasTrackingToken (text : String) : Bool := reTest trackingDetectRE text

/-- The five boolean WhatsApp-chat features of `detectImageType`; the chat-word
feature is tested against `text.toLowerCase()` as in the source. -/
def whatsappFeatures (text : String) : List Bool :=
  [reTest timestampRE text,
   reTest chatWordsRE (jsLower text),
   reTest addressIndRE text,
   reTest waHeaderRE text,
   reTest ticksRE text]

/-- `whatsappScore`: how many of the five features are present. -/
def whatsappScore (text : String) : Nat :=
  ((whatsappFeatures text).filter id).length

/-- `GuideParser.detectImageType` (src/unnamed/part_009, lines 21–50). -/
def detectImageType (text : String) : ImageType :=
  if hasCarrierToken text && hasTrackingToken text then .carrier_guide
  else if 2 ≤ whatsappScore text && !hasCarrierToken text then .whatsapp_chat
  else .unknown

/-- `GuideParser.isWhatsAppChat`. -/
def isWhatsAppChat (text : String) : Bool :=
  detectImageType text = .whatsapp_chat

end ShipTrack

namespace ShipTrack

/-! ## `GuideParser.extractData` (src/unnamed/part_009, lines 111–202) -/

/-- The `carriers` dictionary, in object-entry order: first entry whose
pattern matches supplies `data.carrier`. -/
def carriersList : List (String × RE) :=
  [("Servientrega", strCI "servientrega"),
   ("Coordinadora", strCI "coordinadora"),
   ("InterRapidisimo", interRE),
   ("Envia", .alt enviaRE (strCI "colvanes")),
   ("TCC", tccRE),
   ("472", c472RE)]

/-- `/(?:gu[íi]a|tracking|numero|guia)\s*[:#]?\s*([A-Z0-9]{8,20})/i` — the
first tracking pattern (case-insensitive, unlike the one in
`detectImageType`). -/
def trackingRE1 : RE :=
  .cat (altList [.cat (strCI "gu") (.cat (clsCIof ['í', 'i']) (strCI "a")),
      strCI "tracking", strCI "numero", strCI "guia"])
    (.cat wsStar (.cat (.opt (.cls isColonHash))
      (.cat wsStar (.group 1 (.repCls isAlnumCI 8 (some 20))))))

/-- `/\b(\d{10,15})\b/` — the second tracking pattern. -/
def trackingRE2 : RE :=
  .cat .wb (.cat (.group 1 (.repCls isDigitChar 10 (some 15))) .wb)

/-- `/([A-Z]{2,3}\d{9,12})/` — the third tracking pattern. -/
def trackingRE3 : RE :=
  .group 1 (.cat (.repCls isUpperAZ 2 (some 3)) (.repCls isDigitChar 9 (some 12)))

/-- The ordered tracking-pattern list of `extractData`. -/
def trackingPatterns : List RE := [trackingRE1, trackingRE2, trackingRE3]

/-- `(match[1] || match[0])` for one pattern: the first capture group, or the
whole match if the group is absent or empty (JS `||` treats the empty string
as falsy). -/
def matchG1orWhole (r : RE) (s : String) : Option String :=
  match searchFrom r none s.data with
  | none => none
  | some m =>
      match m.groups.find? (fun g => g.fst = 1) with
      | some g => if g.snd.isEmpty then some (String.mk m.consumed) else some (String.mk g.snd)
      | none => some (String.mk m.consumed)

/-- The tracking-number loop: first pattern that matches wins;
`(match[1] || match[0]).trim()`. -/
def trackingToken : List RE → String → Option String
  | [], _ => none
  | r :: t, s =>
      match matchG1orWhole r s with
      | some tok => some (jsTrim tok)
      | none => trackingToken t s

/-- The single name pattern
`/(?:destinatario|nombre|cliente|para)\s*[:#]?\s*([A-ZÁÉÍÓÚÑ][a-záéíóúñ]+(?:\s+[A-ZÁÉÍÓÚÑ][a-záéíóúñ]+){1,3})/i`.
The `{1,3}` group is unrolled as `X·(X·X?)?`, which enumerates 3, 2, 1
repetitions in the greedy backtracking order. -/
def nameRE : RE :=
  let word : RE := .cat (.cls isNameChar) (.repCls isNameChar 1 none)
  let sw : RE := .cat (.repCls isJsSpace 1 none) word
  .cat (altList [strCI "destinatario", strCI "nombre", strCI "cliente", strCI "para"])
    (.cat wsStar (.cat (.opt (.cls isColonHash))
      (.cat wsStar (.group 1 (.cat word (.cat sw (.opt (.cat sw (.opt sw)))))))))

/-- `/(\+?57\s?)?([3][0-9]{2}[\s.-]?[0-9]{3}[\s.-]?[0-9]{4})/` — the Colombian
phone pattern; `extractData` uses capture group 2. -/
def phoneRE : RE :=
  .cat (.opt (.group 1 (.cat (.opt (chE '+')) (.cat (strE "57") (.opt (.cls isJsSpace))))))
    (.group 2 (.cat (chE '3') (.cat (.repCls isDigitChar 2 (some 2))
      (.cat (.opt (.cls isPhoneSep)) (.cat (.repCls isDigitChar 3 (some 3))
        (.cat (.opt (.cls isPhoneSep)) (.repCls isDigitChar 4 (some 4))))))))

/-- `'57' + phoneMatch[2].replace(/[\s.-]/g, '')`. -/
def phoneFromMatch (g : String) : String :=
  "57" ++ String.mk (g.data.filter (fun c => !isPhoneSep c))

/-- `/((?:calle|carrera|cra|cll|av|avenida|transversal|diagonal)\s*#?\s*\d+[^,\n]{0,50})/i`. -/
def addressRE : RE :=
  .group 1 (.cat (altList [strCI "calle", strCI "carrera", strCI "cra", strCI "cll",
      strCI "av", strCI "avenida", strCI "transversal", strCI "diagonal"])
    (.cat wsStar (.cat (.opt (chE '#')) (.cat wsStar
      (.cat (.repCls isDigitChar 1 none) (.repCls isNotCommaNl 0 (some 50)))))))

/-- One row of the `colombian-cities.json` reference table (the table itself
is a data file of the repository, supplied here as a parameter). -/
structure CityEntry where
  city : String
  department : String
deriving DecidableEq, Repr

/-- The city scan of `extractData` (lines 175–185): normalize the text once,
then take the first table entry whose accent-normalized name is a substring
(`String.prototype.includes`) of the normalized text. -/
def cityScan (table : List CityEntry) (text : String) : Option CityEntry :=
  table.find? (fun e => containsSub (normalizeText text) (normalizeText e.city))

/-- `ShippingGuideData` (src/unnamed/part_017): `customerPhone` is the one
optional field; the record built by `extractData` fills the others with
defaults. -/
structure ShippingGuideData where
  trackingNumber : String
  customerName : String
  customerPhone : Option String
  shippingAddress : String
  city : String
  department : String
  carrier : String
  rawText : String
deriving DecidableEq, Repr

/-- The three ways `extractData` can come back to its caller: the
`WhatsAppChatDetectedError` throw, the `null` return, or a record. -/
inductive ExtractResult where
  | chatDetected : ExtractResult
  | noData : ExtractResult
  | record : ShippingGuideData → ExtractResult
deriving DecidableEq, Repr

/-- `text.substring(0, 1000)`. -/
def takeChars (n : Nat) (s : String) : String := String.mk (s.data.take n)

/-- `GuideParser.extractData` (src/unnamed/part_009, lines 111–202).  All
captured tokens are non-empty strings, so the JS truthiness tests on
`data.trackingNumber`, `data.customerName` and `data.customerPhone` coincide
with `Option.isSome`. -/
def extractData (table : List CityEntry) (text : String) : ExtractResult :=
  if isWhatsAppChat text then .chatDetected
  else
    let carrier := (carriersList.find? (fun e => reTest e.snd text)).map (fun e => e.fst)
    let trackingNumber := trackingToken trackingPatterns text
    let customerName := (reGroup nameRE 1 text).map jsTrim
    let customerPhone := (reGroup phoneRE 2 text).map phoneFromMatch
    let shippingAddress := (reGroup addressRE 1 text).map jsTrim
    let cityHit := cityScan table text
    match trackingNumber with
    | none => .noData
    | some tn =>
        if customerName.isSome || customerPhone.isSome then
          .record
            { trackingNumber := tn
              customerName := customerName.getD "Unknown"
              customerPhone := customerPhone
              shippingAddress := shippingAddress.getD ""
              city := (cityHit.map (fun e => e.city)).getD ""
              department := (cityHit.map (fun e => e.department)).getD ""
              carrier := carrier.getD "Unknown"
              rawText := takeChars 1000 text }
        else .noData

end ShipTrack

namespace ShipTrack

/-! ## Retry configuration (src/unnamed/part_013) -/

/-- `RetryConfig`.  The multiplier is a JS number; every claim instantiates
it with a natural number, for which `Math.pow` is exact. -/
structure RetryConfig where
  maxRetries : Nat
  initialDelayMs : Nat
  maxDelayMs : Nat
  backoffMultiplier : Nat
deriving DecidableEq, Repr

/-- `CircuitBreakerConfig`. -/
structure CircuitBreakerConfig where
  failureThreshold : Nat
  resetTimeoutMs : Nat
deriving DecidableEq, Repr

/-- `calculateBackoffDelay` (src/unnamed/part_013, lines 33–39):
`Math.min(initialDelayMs * backoffMultiplier ** attempt, maxDelayMs)`. -/
def calculateBackoffDelay (attempt : Nat) (config : RetryConfig) : Nat :=
  min (config.initialDelayMs * config.backoffMultiplier ^ attempt) config.maxDelayMs

/-! ## `WhatsAppSender` circuit breaker (src/src/services/WhatsAppSender.ts) -/

inductive CircuitState where
  | CLOSED : CircuitState
  | OPEN : CircuitState
  | HALF_OPEN : CircuitState
deriving DecidableEq, Repr

/-- The mutable breaker fields of a `WhatsAppSender` instance
(lines 44–46; initialised to `CLOSED`, `0`, `0`). -/
structure BreakerState where
  circuitState : CircuitState
  failureCount : Nat
  lastFailureTime : Nat
deriving DecidableEq, Repr

/-- The state a freshly constructed sender starts in. -/
def initialBreaker : BreakerState := ⟨.CLOSED, 0, 0⟩

/-- `canMakeRequest` (lines 112–134).  `now` is `Date.now()`; the method both
answers whether a request may proceed and performs the lazy
`OPEN → HALF_OPEN` transition. -/
def canMakeRequest (cfg : CircuitBreakerConfig) (now : Nat) (s : BreakerState) :
    Bool × BreakerState :=
  match s.circuitState with
  | .CLOSED => (true, s)
  | .OPEN =>
      if cfg.resetTimeoutMs ≤ now - s.lastFailureTime then
        (true, { s with circuitState := .HALF_OPEN })
      else
        (false, s)
  | .HALF_OPEN => (true, s)

/-- `recordSuccess` (lines 139–149): reset the counter and close the
circuit. -/
def recordSuccess (s : BreakerState) : BreakerState :=
  { s with failureCount := 0, circuitState := .CLOSED }

/-- `recordFailure` (lines 154–181): bump the counter, stamp the failure
time; re-open from `HALF_OPEN`, open from elsewhere when the counter reaches
the threshold. -/
def recordFailure (cfg : CircuitBreakerConfig) (now : Nat) (s : BreakerState) :
    BreakerState :=
  let s1 := { s with failureCount := s.failureCount + 1, lastFailureTime := now }
  if s.circuitState = .HALF_OPEN then
    { s1 with circuitState := .OPEN }
  else if cfg.failureThreshold ≤ s1.failureCount then
    { s1 with circuitState := .OPEN }
  else
    s1

/-! ## `executeWithRetry` (lines 186–256) -/

/-- The outcome the wrapped operation would produce on a given attempt:
resolve, or reject with an error that `isRetryableError` classifies. -/
inductive Outcome where
  | success : Outcome
  | failure : Bool → Outcome
deriving DecidableEq, Repr

/-- What one `executeWithRetry` call did: whether it returned normally
(`ok = true`) or threw (`ok = false`, covering both the circuit-breaker
rejection and the rethrown operation error), the breaker state it left
behind, and how many times it invoked the operation (network calls). -/
structure RetryResult where
  ok : Bool
  state : BreakerState
  networkCalls : Nat
deriving DecidableEq, Repr

/-- The delay slept before loop iteration `attempt` (lines 205–213): none
before the first attempt, `calculateBackoffDelay(attempt - 1)` before each
retry. -/
def delayBeforeAttempt (rcfg : RetryConfig) (attempt : Nat) : Nat :=
  match attempt with
  | 0 => 0
  | n + 1 => calculateBackoffDelay n rcfg

/-- The body of `executeWithRetry`'s `for` loop, one constructor step per
iteration.  `attempt` is the loop index, `rem + 1` the number of iterations
the `for` bound still allows (so `rem = 0` exactly when
`attempt === maxRetries`); `outcomes k` is what the operation does on its
`k`-th invocation and `time k` is `Date.now()` during iteration `k`.  The
`rem = 0` base case is the dead code after the loop (lines 253–255). -/
def executeWithRetryAux (ccfg : CircuitBreakerConfig) (outcomes : Nat → Outcome)
    (time : Nat → Nat) : Nat → Nat → BreakerState → Nat → RetryResult
  | attempt, 0, s, calls => ⟨false, recordFailure ccfg (time attempt) s, calls⟩
  | attempt, rem + 1, s, calls =>
      let checked := canMakeRequest ccfg (time attempt) s
      if checked.fst then
        match outcomes attempt with
        | .success => ⟨true, recordSuccess checked.snd, calls + 1⟩
        | .failure retryable =>
            if !retryable || rem = 0 then
              ⟨false, recordFailure ccfg (time attempt) checked.snd, calls + 1⟩
            else
              executeWithRetryAux ccfg outcomes time (attempt + 1) rem checked.snd (calls + 1)
      else
        ⟨false, checked.snd, calls⟩

/-- `executeWithRetry`: run the loop for attempts `0 .. maxRetries`. -/
def executeWithRetry (rcfg : RetryConfig) (ccfg : CircuitBreakerConfig)
    (outcomes : Nat → Outcome) (time : Nat → Nat) (s : BreakerState) : RetryResult :=
  executeWithRetryAux ccfg outcomes time 0 (rcfg.maxRetries + 1) s 0

/-! ## `formatPhone` and `sendGuide` -/

/-- `phone.replace(/\D/g, '')`. -/
def digitsOf (phone : String) : String :=
  String.mk (phone.data.filter isDigitChar)

/-- JS `String.prototype.startsWith`. -/
def jsStartsWith (s pre : String) : Bool := decide (pre.data <+: s.data)

/-- `formatPhone` (lines 453–458). -/
def formatPhone (phone : String) : String :=
  let digits := digitsOf phone
  if jsStartsWith digits "57" then digits
  else if digits.length = 10 then "57" ++ digits
  else digits

/-- `sendGuide` (lines 355–405): format the phone, send the text with retry,
then the media with retry, both against the same breaker state; any throw is
caught and surfaced as `false`.  The message formatting and file reading do
not influence control flow and are abstracted into the two outcome
sequences. -/
def sendGuide (rcfg : RetryConfig) (ccfg : CircuitBreakerConfig)
    (_phone : String) (_guideData : ShippingGuideData) (_filePath : String)
    (textOutcomes mediaOutcomes : Nat → Outcome) (textTime mediaTime : Nat → Nat)
    (s : BreakerState) : Bool × BreakerState :=
  let r1 := executeWithRetry rcfg ccfg textOutcomes textTime s
  if r1.ok then
    let r2 := executeWithRetry rcfg ccfg mediaOutcomes mediaTime r1.state
    (r2.ok, r2.state)
  else
    (false, r1.state)

end ShipTrack

namespace ShipTrack

/-! ## `CustomerMatcher` (src/src/services/CustomerMatcher.ts)

The order store is modelled as a list of rows; the parameterized
`SELECT ... WHERE ... LIKE ? ... ORDER BY created_at DESC LIMIT 1` query
becomes: filter by the predicate, sort by `created_at` descending, take the
head. -/

/-- A row of the `orders` table (the columns the matcher touches). -/
structure OrderRow where
  id : Nat
  order_number : String
  phone_number : String
  shipping_phone : String
  customer_name : String
  shipping_address : String
  processing_status : String
  tracking_number : Option String
  created_at : Nat
deriving DecidableEq, Repr

/-- The eligibility predicate every tier appends:
`processing_status IN ('confirmed','processing') AND tracking_number IS NULL`. -/
def eligibleOrder (o : OrderRow) : Bool :=
  (o.processing_status = "confirmed" || o.processing_status = "processing")
    && o.tracking_number.isNone

/-- `ORDER BY created_at DESC LIMIT 1` over the rows satisfying `pred`. -/
def queryFirst (pred : OrderRow → Bool) (orders : List OrderRow) : Option OrderRow :=
  ((orders.filter pred).mergeSort (fun a b => b.created_at ≤ a.created_at)).head?

/-- `CustomerMatch` (src/unnamed/part_017). -/
structure CustomerMatch where
  id : Nat
  orderNumber : String
  phone : String
  name : String
  address : String
  confidence : Nat
  matchedBy : String
deriving DecidableEq, Repr

/-- The row-to-match conversion shared by the three tiers. -/
def mkMatch (o : OrderRow) (confidence : Nat) (matchedBy : String) : CustomerMatch :=
  ⟨o.id, o.order_number, o.phone_number, o.customer_name, o.shipping_address,
    confidence, matchedBy⟩

/-- `phone.replace(/\D/g, '').slice(-10)`: the last 10 digits (all of them if
fewer). -/
def sanitizePhone (phone : String) : String :=
  let ds := (digitsOf phone).data
  String.mk (ds.drop (ds.length - 10))

/-- The WHERE clause of `matchByPhone`:
`(phone_number LIKE %s% OR shipping_phone LIKE %s%)` plus eligibility. -/
def phonePred (sanitized : String) (o : OrderRow) : Bool :=
  (containsSub o.phone_number sanitized || containsSub o.shipping_phone sanitized)
    && eligibleOrder o

/-- `matchByPhone` (lines 41–74): confidence 100, tier `"phone"`. -/
def matchByPhone (phone : String) (orders : List OrderRow) : Option CustomerMatch :=
  (queryFirst (phonePred (sanitizePhone phone)) orders).map
    (fun o => mkMatch o 100 "phone")

/-- `name.toLowerCase().split(/\s+/)[0]`, the only part of the split the
source uses: the empty string when the name starts with whitespace, otherwise
the maximal non-whitespace prefix of the lowercased name. -/
def firstNameToken (name : String) : String :=
  String.mk ((jsLower name).data.takeWhile (fun c => !isJsSpace c))

/-- The WHERE clause of `matchByName`: `LOWER(customer_name) LIKE %part0%`,
AND-ed with `LOWER(shipping_address) LIKE %city%` when a (truthy) city is
given, plus eligibility. -/
def namePred (part0 : String) (city : String) (o : OrderRow) : Bool :=
  containsSub (jsLower o.customer_name) part0
    && (if city ≠ "" then containsSub (jsLower o.shipping_address) (jsLower city) else true)
    && eligibleOrder o

/-- `matchByName` (lines 76–110): confidence 80, tier `"name"`. -/
def matchByName (name : String) (city : String) (orders : List OrderRow) :
    Option CustomerMatch :=
  (queryFirst (namePred (firstNameToken name) city) orders).map
    (fun o => mkMatch o 80 "name")

/-- The WHERE clause of `matchByAddress`:
`LOWER(shipping_address) LIKE %address.toLowerCase().substring(0,30)%` plus
eligibility. -/
def addressPred (address : String) (o : OrderRow) : Bool :=
  containsSub (jsLower o.shipping_address) (takeChars 30 (jsLower address))
    && eligibleOrder o

/-- `matchByAddress` (lines 112–136): confidence 60, tier `"address"`. -/
def matchByAddress (address : String) (orders : List OrderRow) :
    Option CustomerMatch :=
  (queryFirst (addressPred address) orders).map (fun o => mkMatch o 60 "address")

/-- JS truthiness of the optional phone field. -/
def truthyOpt (s : Option String) : Bool :=
  match s with
  | some v => v ≠ ""
  | none => false

/-- `findCustomer` (lines 19–39): phone tier, then name(+city) tier, then
address tier, each only attempted when its input field is truthy and the
previous tiers produced nothing. -/
def findCustomer (guideData : ShippingGuideData) (orders : List OrderRow) :
    Option CustomerMatch :=
  let byPhone :=
    if truthyOpt guideData.customerPhone then
      matchByPhone (guideData.customerPhone.getD "") orders
    else none
  match byPhone with
  | some m => some m
  | none =>
      let byName :=
        if guideData.customerName ≠ "" then
          matchByName guideData.customerName guideData.city orders
        else none
      match byName with
      | some m => some m
      | none =>
          if guideData.shippingAddress ≠ "" then
            matchByAddress guideData.shippingAddress orders
          else none

end ShipTrack

namespace ShipTrack

/-! ## Supporting lemmas -/

theorem digitsOf_idem (p : String) : digitsOf (digitsOf p) = digitsOf p := by
  simp [digitsOf, List.filter_filter]

/-! ## C7: `formatPhone` -/

/-- C7: `formatPhone` passes through unchanged any number already carrying
the `"57"` prefix (after stripping non-digits), prepends `"57"` to every
other 10-digit number, passes any other length through unchanged, and is
idempotent — in particular on an already-normalized 12-digit `"57"`-prefixed
number. -/
theorem C7_formatPhone_spec (phone : String) :
    (jsStartsWith (digitsOf phone) "57" = true → formatPhone phone = digitsOf phone) ∧
    (jsStartsWith (digitsOf phone) "57" = false → (digitsOf phone).length = 10 →
      formatPhone phone = "57" ++ digitsOf phone) ∧
    (jsStartsWith (digitsOf phone) "57" = false → (digitsOf phone).length ≠ 10 →
      formatPhone phone = digitsOf phone) ∧
    ((digitsOf phone).length = 12 → jsStartsWith (digitsOf phone) "57" = true →
      formatPhone (formatPhone phone) = formatPhone phone) := by
  refine ⟨?_, ?_, ?_, ?_⟩
  · intro h; simp [formatPhone, h]
  · intro h h10; simp [formatPhone, h, h10]
  · intro h h10; simp [formatPhone, h, h10]
  · intro _ h
    have h1 : formatPhone phone = digitsOf phone := by simp [formatPhone, h]
    rw [h1]
    simp [formatPhone, digitsOf_idem, h]

/-- Witness for C7 at concrete inputs: a bare 10-digit mobile number gets the
prefix prepended; normalizing an already-normalized 12-digit number is a
no-op. -/
theorem C7_formatPhone_witness :
    formatPhone "300-123-4567" = "57" ++ digitsOf "300-123-4567" ∧
    formatPhone (formatPhone "573001234567") = formatPhone "573001234567" := by
  constructor
  · exact (C7_formatPhone_spec "300-123-4567").2.1 (by decide) (by decide)
  · exact (C7_formatPhone_spec "573001234567").2.2.2 (by decide) (by decide)

/-! ## C8: backoff schedule -/

/-- C8: the delay slept before retry attempt `n` (`n ≥ 1`) is
`min(initialDelayMs * backoffMultiplier^(n-1), maxDelayMs)`; with
`{initialDelayMs := 1000, maxDelayMs := 10000, backoffMultiplier := 2}` the
schedule is 1000, 2000, 4000, 8000, and 10000 for every later attempt. -/
theorem C8_backoff_schedule (rcfg : RetryConfig) (n : Nat) (h1 : 1 ≤ n) :
    delayBeforeAttempt rcfg n =
      min (rcfg.initialDelayMs * rcfg.backoffMultiplier ^ (n - 1)) rcfg.maxDelayMs ∧
    (rcfg.initialDelayMs = 1000 → rcfg.maxDelayMs = 10000 → rcfg.backoffMultiplier = 2 →
      (delayBeforeAttempt rcfg 1 = 1000 ∧ delayBeforeAttempt rcfg 2 = 2000 ∧
       delayBeforeAttempt rcfg 3 = 4000 ∧ delayBeforeAttempt rcfg 4 = 8000 ∧
       (5 ≤ n → delayBeforeAttempt rcfg n = 10000))) := by
  obtain ⟨m, rfl⟩ : ∃ m, n = m + 1 := ⟨n - 1, (Nat.succ_pred_eq_of_pos h1).symm⟩
  constructor
  · simp [delayBeforeAttempt, calculateBackoffDelay]
  · intro hi hm hb
    refine ⟨by simp [delayBeforeAttempt, calculateBackoffDelay, hi, hm, hb],
      by simp [delayBeforeAttempt, calculateBackoffDelay, hi, hm, hb],
      by simp [delayBeforeAttempt, calculateBackoffDelay, hi, hm, hb],
      by simp [delayBeforeAttempt, calculateBackoffDelay, hi, hm, hb], ?_⟩
    intro h5
    have h4 : 4 ≤ m := by omega
    have hpow : (16 : Nat) ≤ 2 ^ m :=
      le_trans (by norm_num) (Nat.pow_le_pow_right (by norm_num) h4)
    have : (10000 : Nat) ≤ 1000 * 2 ^ m := by
      calc (10000 : Nat) ≤ 1000 * 16 := by norm_num
      _ ≤ 1000 * 2 ^ m := Nat.mul_le_mul_left 1000 hpow
    simp [delayBeforeAttempt, calculateBackoffDelay, hi, hm, hb,
      Nat.min_eq_right this]

/-- Witness for C8: the concrete schedule at the default retry
configuration, attempt 5 capped at the maximum. -/
theorem C8_backoff_witness :
    delayBeforeAttempt ⟨3, 1000, 10000, 2⟩ 5 =
      min (1000 * 2 ^ (5 - 1)) 10000 ∧
    delayBeforeAttempt ⟨3, 1000, 10000, 2⟩ 5 = 10000 := by
  refine ⟨(C8_backoff_schedule ⟨3, 1000, 10000, 2⟩ 5 (by decide)).1, ?_⟩
  exact ((C8_backoff_schedule ⟨3, 1000, 10000, 2⟩ 5 (by decide)).2 rfl rfl rfl).2.2.2.2
    (by decide)

end ShipTrack

namespace ShipTrack

/-! ## C5: `detectImageType` classification -/

/-- C5: classification returns `carrier_guide` whenever a carrier token and a
tracking-shaped token are both present (regardless of the chat features); it
returns `whatsapp_chat` only when at least 2 of the five chat features are
present and no carrier token is; every other case — the empty string
included — is `unknown`. -/
theorem C5_detectImageType_spec (text : String) :
    (hasCarrierToken text = true → hasTrackingToken text = true →
      detectImageType text = .carrier_guide) ∧
    (detectImageType text = .whatsapp_chat →
      2 ≤ whatsappScore text ∧ hasCarrierToken text = false) ∧
    (¬(hasCarrierToken text = true ∧ hasTrackingToken text = true) →
      ¬(2 ≤ whatsappScore text ∧ hasCarrierToken text = false) →
      detectImageType text = .unknown) ∧
    detectImageType "" = .unknown := by
  refine ⟨?_, ?_, ?_, by decide⟩
  · intro hc ht; simp [detectImageType, hc, ht]
  · intro h
    by_cases hc : hasCarrierToken text = true
    · by_cases ht : hasTrackingToken text = true
      · simp [detectImageType, hc, ht] at h
      · simp [detectImageType, hc, ht] at h
    · simp only [Bool.not_eq_true] at hc
      by_cases hs : 2 ≤ whatsappScore text
      · exact ⟨hs, hc⟩
      · by_cases ht : hasTrackingToken text = true <;>
          simp [detectImageType, hc, ht, hs] at h
  · intro h1 h2
    by_cases hc : hasCarrierToken text = true
    · by_cases ht : hasTrackingToken text = true
      · exact absurd ⟨hc, ht⟩ h1
      · simp [detectImageType, hc, ht]
    · simp only [Bool.not_eq_true] at hc
      by_cases hs : 2 ≤ whatsappScore text
      · exact absurd ⟨hs, hc⟩ h2
      · by_cases ht : hasTrackingToken text = true <;>
          simp [detectImageType, hc, ht, hs]

/-- Witness for C5: a carrier token plus a bare 10-digit tracking token
classify as `carrier_guide`. -/
theorem C5_detectImageType_witness :
    detectImageType "SERVIENTREGA 1234567890" = .carrier_guide :=
  (C5_detectImageType_spec "SERVIENTREGA 1234567890").1 (by decide) (by decide)

end ShipTrack

namespace ShipTrack

/-! ## Circuit-breaker events and reachability (for C10) -/

/-- The three operations that touch the breaker fields. -/
inductive CBEvent where
  | success : CBEvent
  | failure : Nat → CBEvent
  | check : Nat → CBEvent
deriving DecidableEq, Repr

/-- Apply one breaker operation. -/
def stepCB (cfg : CircuitBreakerConfig) (s : BreakerState) : CBEvent → BreakerState
  | .success => recordSuccess s
  | .failure t => recordFailure cfg t s
  | .check t => (canMakeRequest cfg t s).snd

/-- The breaker state reached from construction by a sequence of
operations. -/
def runCB (cfg : CircuitBreakerConfig) (events : List CBEvent) : BreakerState :=
  events.foldl (stepCB cfg) initialBreaker

/-- The inductive invariant behind C10: in a `CLOSED` state the counter is
below the threshold. -/
def closedInv (cfg : CircuitBreakerConfig) (s : BreakerState) : Prop :=
  s.circuitState = .CLOSED → s.failureCount < cfg.failureThreshold

theorem stepCB_closedInv (cfg : CircuitBreakerConfig) (h1 : 1 ≤ cfg.failureThreshold)
    (s : BreakerState) (hs : closedInv cfg s) (e : CBEvent) :
    closedInv cfg (stepCB cfg s e) := by
  cases e with
  | success => intro _; simpa [stepCB, recordSuccess] using h1
  | failure t =>
      intro hc
      simp only [stepCB, recordFailure] at hc ⊢
      by_cases hh : s.circuitState = CircuitState.HALF_OPEN
      · simp [hh] at hc
      · by_cases ht : cfg.failureThreshold ≤ s.failureCount + 1
        · simp [hh, ht] at hc
        · simp [hh, ht] at hc ⊢
          omega
  | check t =>
      intro hc
      simp only [stepCB, canMakeRequest] at hc ⊢
      cases hcs : s.circuitState with
      | CLOSED => simp [hcs] at hc ⊢; exact hs hcs
      | OPEN =>
          by_cases htm : cfg.resetTimeoutMs ≤ t - s.lastFailureTime <;>
            simp [hcs, htm] at hc ⊢
      | HALF_OPEN => simp [hcs] at hc

theorem runCB_closedInv (cfg : CircuitBreakerConfig) (h1 : 1 ≤ cfg.failureThreshold)
    (events : List CBEvent) : closedInv cfg (runCB cfg events) := by
  suffices h : ∀ s, closedInv cfg s → closedInv cfg (events.foldl (stepCB cfg) s) by
    exact h initialBreaker (by intro _; simpa [initialBreaker] using h1)
  induction events with
  | nil => intro s hs; exact hs
  | cons e t ih => intro s hs; exact ih _ (stepCB_closedInv cfg h1 s hs e)

theorem iterate_recordFailure_count (cfg : CircuitBreakerConfig) (t : Nat)
    (s : BreakerState) (k : Nat) :
    ((fun st => recordFailure cfg t st)^[k] s).failureCount = s.failureCount + k := by
  induction k generalizing s with
  | zero => simp
  | succ n ih =>
      rw [Function.iterate_succ_apply]
      have := ih (recordFailure cfg t s)
      rw [this]
      simp only [recordFailure]
      by_cases hh : s.circuitState = CircuitState.HALF_OPEN
      · simp [hh]; omega
      · by_cases ht : cfg.failureThreshold ≤ s.failureCount + 1 <;> simp [hh, ht] <;> omega

/-! ## C10: a success always closes and clears the breaker -/

/-- C10: from every breaker state, `recordSuccess` yields `CLOSED` with the
counter at 0; consecutive failures after a success accumulate one by one from
0; and in every state reachable from construction whose circuit is `CLOSED`
the counter is strictly below `failureThreshold`. -/
theorem C10_recordSuccess_resets (cfg : CircuitBreakerConfig) (s : BreakerState)
    (events : List CBEvent) (t k : Nat) (h1 : 1 ≤ cfg.failureThreshold) :
    recordSuccess s = ⟨.CLOSED, 0, s.lastFailureTime⟩ ∧
    ((fun st => recordFailure cfg t st)^[k] (recordSuccess s)).failureCount = k ∧
    ((runCB cfg events).circuitState = .CLOSED →
      (runCB cfg events).failureCount < cfg.failureThreshold) := by
  refine ⟨rfl, ?_, runCB_closedInv cfg h1 events⟩
  rw [iterate_recordFailure_count]
  simp [recordSuccess]

/-- Witness for C10: a success out of an open, saturated breaker closes it;
two failures then count exactly 2; after `[failure, success]` the state is
`CLOSED` with the counter under the threshold 5. -/
theorem C10_recordSuccess_witness :
    recordSuccess ⟨.OPEN, 7, 123⟩ = ⟨.CLOSED, 0, 123⟩ ∧
    ((fun st => recordFailure ⟨5, 30000⟩ 99 st)^[2] (recordSuccess ⟨.OPEN, 7, 123⟩)).failureCount = 2 ∧
    ((runCB ⟨5, 30000⟩ [.failure 10, .success]).circuitState = .CLOSED →
      (runCB ⟨5, 30000⟩ [.failure 10, .success]).failureCount < 5) :=
  C10_recordSuccess_resets ⟨5, 30000⟩ ⟨.OPEN, 7, 123⟩ [.failure 10, .success] 99 2
    (by decide)

end ShipTrack

namespace ShipTrack

/-! ## `executeWithRetry` lemmas (for C2 and C3) -/

theorem canMakeRequest_not_open (cfg : CircuitBreakerConfig) (now : Nat)
    (s : BreakerState) (hs : s.circuitState ≠ .OPEN) :
    canMakeRequest cfg now s = (true, s) := by
  cases hcs : s.circuitState with
  | CLOSED => simp [canMakeRequest, hcs]
  | OPEN => exact absurd hcs hs
  | HALF_OPEN => simp [canMakeRequest, hcs]

theorem recordSuccess_failureCount (s : BreakerState) :
    (recordSuccess s).failureCount = 0 := rfl

theorem recordFailure_failureCount (cfg : CircuitBreakerConfig) (t : Nat)
    (s : BreakerState) : (recordFailure cfg t s).failureCount = s.failureCount + 1 := by
  simp only [recordFailure]
  split
  · rfl
  · split <;> rfl

theorem recordFailure_halfOpen (cfg : CircuitBreakerConfig) (t : Nat)
    (s : BreakerState) (hs : s.circuitState = .HALF_OPEN) :
    recordFailure cfg t s = ⟨.OPEN, s.failureCount + 1, t⟩ := by
  simp [recordFailure, hs]

/-- One unfolding of the loop body (kept as a lemma so proofs can unfold a
single iteration at a time). -/
theorem executeWithRetryAux_step (ccfg : CircuitBreakerConfig)
    (outcomes : Nat → Outcome) (time : Nat → Nat)
    (attempt rem : Nat) (s : BreakerState) (calls : Nat) :
    executeWithRetryAux ccfg outcomes time attempt (rem + 1) s calls =
      (let checked := canMakeRequest ccfg (time attempt) s
       if checked.fst then
         match outcomes attempt with
         | .success => ⟨true, recordSuccess checked.snd, calls + 1⟩
         | .failure retryable =>
             if !retryable || rem = 0 then
               ⟨false, recordFailure ccfg (time attempt) checked.snd, calls + 1⟩
             else
               executeWithRetryAux ccfg outcomes time (attempt + 1) rem checked.snd (calls + 1)
       else ⟨false, checked.snd, calls⟩) := rfl

/-- While the starting state is not `OPEN`, the loop leaves it untouched
until the terminal `recordSuccess` / `recordFailure`: a normal return leaves
the counter at 0, a throw leaves it at exactly one more than it started. -/
theorem executeWithRetryAux_failCount (ccfg : CircuitBreakerConfig)
    (outcomes : Nat → Outcome) (time : Nat → Nat) (s : BreakerState)
    (hs : s.circuitState ≠ .OPEN) :
    ∀ rem attempt calls,
      ((executeWithRetryAux ccfg outcomes time attempt (rem + 1) s calls).ok = false →
        (executeWithRetryAux ccfg outcomes time attempt (rem + 1) s calls).state.failureCount
          = s.failureCount + 1) ∧
      ((executeWithRetryAux ccfg outcomes time attempt (rem + 1) s calls).ok = true →
        (executeWithRetryAux ccfg outcomes time attempt (rem + 1) s calls).state.failureCount
          = 0) := by
  intro rem
  induction rem with
  | zero =>
      intro attempt calls
      rw [executeWithRetryAux_step]
      simp only [canMakeRequest_not_open ccfg _ s hs]
      cases outcomes attempt with
      | success => simp [recordSuccess_failureCount]
      | failure retryable => simp [recordFailure_failureCount]
  | succ n ih =>
      intro attempt calls
      rw [executeWithRetryAux_step]
      simp only [canMakeRequest_not_open ccfg _ s hs]
      cases outcomes attempt with
      | success => simp [recordSuccess_failureCount]
      | failure retryable =>
          cases retryable with
          | false => simp [recordFailure_failureCount]
          | true => simpa using ih (attempt + 1) (calls + 1)

/-- If every outcome is a retryable failure and the state is `HALF_OPEN`, the
loop burns all remaining attempts and ends with a single `recordFailure`. -/
theorem executeWithRetryAux_allFail (ccfg : CircuitBreakerConfig)
    (outcomes : Nat → Outcome) (time : Nat → Nat) (s : BreakerState)
    (hs : s.circuitState = .HALF_OPEN)
    (hf : ∀ k, outcomes k = .failure true) :
    ∀ rem attempt calls,
      executeWithRetryAux ccfg outcomes time attempt (rem + 1) s calls =
        ⟨false, recordFailure ccfg (time (attempt + rem)) s, calls + rem + 1⟩ := by
  have hs2 : s.circuitState ≠ .OPEN := by rw [hs]; intro h; cases h
  intro rem
  induction rem with
  | zero =>
      intro attempt calls
      rw [executeWithRetryAux_step]
      simp [canMakeRequest_not_open ccfg _ s hs2, hf attempt]
  | succ n ih =>
      intro attempt calls
      rw [executeWithRetryAux_step]
      simp only [canMakeRequest_not_open ccfg _ s hs2, hf attempt, if_true]
      have hrec := ih (attempt + 1) (calls + 1)
      simp only [Nat.succ_ne_zero, Bool.not_true, Bool.false_or, if_false, hrec]
      have h1 : attempt + 1 + n = attempt + (n + 1) := by omega
      have h2 : calls + 1 + n + 1 = calls + (n + 1) + 1 := by omega
      rw [h1, h2]
      simp

/-- A rejected call: `OPEN` within the reset window means the loop throws
before its first network call, leaving the state untouched. -/
theorem executeWithRetry_blocked (rcfg : RetryConfig) (ccfg : CircuitBreakerConfig)
    (outcomes : Nat → Outcome) (time : Nat → Nat) (s : BreakerState)
    (hs : s.circuitState = .OPEN)
    (ht : time 0 - s.lastFailureTime < ccfg.resetTimeoutMs) :
    executeWithRetry rcfg ccfg outcomes time s = ⟨false, s, 0⟩ := by
  rw [executeWithRetry, executeWithRetryAux_step]
  simp [canMakeRequest, hs, Nat.not_le.mpr ht]

/-- Once the reset window has elapsed, the run from `OPEN` coincides with the
run from the half-opened state. -/
theorem executeWithRetry_halfOpen_eq (rcfg : RetryConfig) (ccfg : CircuitBreakerConfig)
    (outcomes : Nat → Outcome) (time : Nat → Nat) (s : BreakerState)
    (hs : s.circuitState = .OPEN)
    (ht : ccfg.resetTimeoutMs ≤ time 0 - s.lastFailureTime) :
    executeWithRetry rcfg ccfg outcomes time s =
      executeWithRetry rcfg ccfg outcomes time { s with circuitState := .HALF_OPEN } := by
  rw [executeWithRetry, executeWithRetry, executeWithRetryAux_step, executeWithRetryAux_step]
  simp [canMakeRequest, hs, ht]

end ShipTrack

namespace ShipTrack

theorem iterate_recordFailure_init (ccfg : CircuitBreakerConfig) (t : Nat)
    (h1 : 1 ≤ ccfg.failureThreshold) :
    ∀ k, k ≤ ccfg.failureThreshold →
      ((fun st => recordFailure ccfg t st)^[k] initialBreaker).failureCount = k ∧
      ((fun st => recordFailure ccfg t st)^[k] initialBreaker).circuitState =
        (if k < ccfg.failureThreshold then .CLOSED else .OPEN) := by
  intro k
  induction k with
  | zero =>
      intro _
      simp [initialBreaker, Nat.lt_of_lt_of_le Nat.zero_lt_one h1]
  | succ n ih =>
      intro hk
      have hn : n < ccfg.failureThreshold := Nat.lt_of_succ_le hk
      obtain ⟨hc, hsst⟩ := ih (Nat.le_of_lt hn)
      rw [Function.iterate_succ_apply']
      rw [if_pos hn] at hsst
      generalize hG : (fun st => recordFailure ccfg t st)^[n] initialBreaker = st at hc hsst ⊢
      have hnh : st.circuitState ≠ CircuitState.HALF_OPEN := by rw [hsst]; intro h; cases h
      constructor
      · rw [recordFailure_failureCount, hc]
      · simp only [recordFailure, hnh, if_false, hc, if_neg hnh]
        by_cases hth : ccfg.failureThreshold ≤ n + 1
        · simp [hth, Nat.not_lt.mpr hth]
        · simp [hth, hsst, Nat.lt_of_not_le hth]

/-! ## C2: the circuit-breaker state machine around `executeWithRetry` -/

/-- C2 (amended): starting `CLOSED`, the state is still `CLOSED` after fewer
than `failureThreshold` consecutive recorded failures and `OPEN` after
exactly `failureThreshold`; while `OPEN` and within `resetTimeoutMs` of the
last failure a send attempt makes zero network calls and leaves the state
untouched; once the timeout has elapsed the next attempt moves the breaker
to `HALF_OPEN` and is admitted — a first-call success sets `CLOSED` with the
counter 0, a non-retryable first-call failure sets `OPEN` after that one
call, and if every call fails retryably the operation makes its full
`maxRetries + 1` network calls while `HALF_OPEN` (not exactly one) and its
terminal failure sets `OPEN`. -/
theorem C2_circuit_breaker_spec (rcfg : RetryConfig) (ccfg : CircuitBreakerConfig)
    (outcomes : Nat → Outcome) (time : Nat → Nat) (s : BreakerState) (t : Nat)
    (h1 : 1 ≤ ccfg.failureThreshold) :
    ((∀ k, k < ccfg.failureThreshold →
        ((fun st => recordFailure ccfg t st)^[k] initialBreaker).circuitState = .CLOSED) ∧
      ((fun st => recordFailure ccfg t st)^[ccfg.failureThreshold] initialBreaker).circuitState
        = .OPEN) ∧
    (s.circuitState = .OPEN → time 0 - s.lastFailureTime < ccfg.resetTimeoutMs →
      executeWithRetry rcfg ccfg outcomes time s = ⟨false, s, 0⟩) ∧
    (s.circuitState = .OPEN → ccfg.resetTimeoutMs ≤ time 0 - s.lastFailureTime →
      canMakeRequest ccfg (time 0) s = (true, { s with circuitState := .HALF_OPEN }) ∧
      (outcomes 0 = .success →
        executeWithRetry rcfg ccfg outcomes time s =
          ⟨true, ⟨.CLOSED, 0, s.lastFailureTime⟩, 1⟩) ∧
      (outcomes 0 = .failure false →
        executeWithRetry rcfg ccfg outcomes time s =
          ⟨false, ⟨.OPEN, s.failureCount + 1, time 0⟩, 1⟩) ∧
      ((∀ k, outcomes k = .failure true) →
        (executeWithRetry rcfg ccfg outcomes time s).state.circuitState = .OPEN ∧
        (executeWithRetry rcfg ccfg outcomes time s).networkCalls = rcfg.maxRetries + 1)) := by
  refine ⟨⟨?_, ?_⟩, ?_, ?_⟩
  · intro k hk
    have := (iterate_recordFailure_init ccfg t h1 k (Nat.le_of_lt hk)).2
    rwa [if_pos hk] at this
  · have := (iterate_recordFailure_init ccfg t h1 ccfg.failureThreshold (le_refl _)).2
    rwa [if_neg (lt_irrefl _)] at this
  · exact executeWithRetry_blocked rcfg ccfg outcomes time s
  · intro hs ht
    have hcan : canMakeRequest ccfg (time 0) s = (true, { s with circuitState := .HALF_OPEN }) := by
      simp [canMakeRequest, hs, ht]
    have heq := executeWithRetry_halfOpen_eq rcfg ccfg outcomes time s hs ht
    have hho : ({ s with circuitState := .HALF_OPEN } : BreakerState).circuitState
        = CircuitState.HALF_OPEN := rfl
    have hnop : ({ s with circuitState := .HALF_OPEN } : BreakerState).circuitState
        ≠ CircuitState.OPEN := by rw [hho]; intro h; cases h
    refine ⟨hcan, ?_, ?_, ?_⟩
    · intro hsucc
      rw [heq, executeWithRetry, executeWithRetryAux_step]
      simp [canMakeRequest_not_open ccfg _ _ hnop, hsucc, recordSuccess]
    · intro hfail
      rw [heq, executeWithRetry, executeWithRetryAux_step]
      simp [canMakeRequest_not_open ccfg _ _ hnop, hfail,
        recordFailure_halfOpen ccfg (time 0) _ hho]
    · intro hf
      rw [heq, executeWithRetry,
        executeWithRetryAux_allFail ccfg outcomes time _ hho hf rcfg.maxRetries 0 0]
      rw [recordFailure_halfOpen ccfg _ _ hho]
      exact ⟨rfl, by simp⟩

/-- Counterexample for C2 as stated: with `maxRetries = 1`, the breaker
`OPEN` with its reset window elapsed, and a retryably failing operation, the
admitted trial makes **2** network calls while `HALF_OPEN`, not exactly
one. -/
theorem C2_circuit_breaker_counterexample :
    (⟨.OPEN, 5, 0⟩ : BreakerState).circuitState = .OPEN ∧
    (30000 : Nat) ≤ (fun k : Nat => 30000 + k) 0 - (⟨.OPEN, 5, 0⟩ : BreakerState).lastFailureTime ∧
    (executeWithRetry ⟨1, 1000, 10000, 2⟩ ⟨5, 30000⟩ (fun _ => .failure true)
        (fun k => 30000 + k) ⟨.OPEN, 5, 0⟩).networkCalls = 2 ∧
    ¬(executeWithRetry ⟨1, 1000, 10000, 2⟩ ⟨5, 30000⟩ (fun _ => .failure true)
        (fun k => 30000 + k) ⟨.OPEN, 5, 0⟩).networkCalls = 1 := by
  refine ⟨rfl, by decide, by decide, by decide⟩

/-- Witness for C2: with threshold 2, two failures open the breaker, one
leaves it closed; a blocked attempt 5 ms after the last failure does nothing;
after the 30000 ms window a successful trial closes the breaker. -/
theorem C2_circuit_breaker_witness :
    ((fun st => recordFailure ⟨2, 30000⟩ 7 st)^[1] initialBreaker).circuitState = .CLOSED ∧
    ((fun st => recordFailure ⟨2, 30000⟩ 7 st)^[2] initialBreaker).circuitState = .OPEN ∧
    executeWithRetry ⟨3, 1000, 10000, 2⟩ ⟨2, 30000⟩ (fun _ => .success) (fun _ => 10)
      ⟨.OPEN, 2, 5⟩ = ⟨false, ⟨.OPEN, 2, 5⟩, 0⟩ ∧
    executeWithRetry ⟨3, 1000, 10000, 2⟩ ⟨2, 30000⟩ (fun _ => .success) (fun _ => 40000)
      ⟨.OPEN, 2, 5⟩ = ⟨true, ⟨.CLOSED, 0, 5⟩, 1⟩ := by
  have h := C2_circuit_breaker_spec ⟨3, 1000, 10000, 2⟩ ⟨2, 30000⟩ (fun _ => .success)
    (fun _ => 10) ⟨.OPEN, 2, 5⟩ 7 (by decide)
  have h2 := C2_circuit_breaker_spec ⟨3, 1000, 10000, 2⟩ ⟨2, 30000⟩ (fun _ => .success)
    (fun _ => 40000) ⟨.OPEN, 2, 5⟩ 7 (by decide)
  exact ⟨h.1.1 1 (by decide), h.1.2, h.2.1 rfl (by decide),
    ((h2.2.2 rfl (by decide)).2.1 rfl)⟩

/-! ## C3: what counts toward the failure counter -/

/-- C3 (amended): an admitted operation that ends in a throw — retry
exhaustion or a non-retryable error — increments the failure counter by
exactly one, whether the breaker started `CLOSED`, `HALF_OPEN`, or `OPEN`
past its reset window; but a rejection by the open circuit happens **before**
`recordFailure` is ever called, so it returns with zero network calls and the
counter unchanged. -/
theorem C3_failure_accounting (rcfg : RetryConfig) (ccfg : CircuitBreakerConfig)
    (outcomes : Nat → Outcome) (time : Nat → Nat) (s : BreakerState) :
    ((s.circuitState = .CLOSED ∨ s.circuitState = .HALF_OPEN) →
      (executeWithRetry rcfg ccfg outcomes time s).ok = false →
      (executeWithRetry rcfg ccfg outcomes time s).state.failureCount = s.failureCount + 1) ∧
    (s.circuitState = .OPEN → ccfg.resetTimeoutMs ≤ time 0 - s.lastFailureTime →
      (executeWithRetry rcfg ccfg outcomes time s).ok = false →
      (executeWithRetry rcfg ccfg outcomes time s).state.failureCount = s.failureCount + 1) ∧
    (s.circuitState = .OPEN → time 0 - s.lastFailureTime < ccfg.resetTimeoutMs →
      executeWithRetry rcfg ccfg outcomes time s = ⟨false, s, 0⟩) := by
  refine ⟨?_, ?_, executeWithRetry_blocked rcfg ccfg outcomes time s⟩
  · intro hs
    have hnop : s.circuitState ≠ .OPEN := by
      rcases hs with h | h <;> rw [h] <;> intro hh <;> cases hh
    exact (executeWithRetryAux_failCount ccfg outcomes time s hnop rcfg.maxRetries 0 0).1
  · intro hs ht
    rw [executeWithRetry_halfOpen_eq rcfg ccfg outcomes time s hs ht]
    have hnop : ({ s with circuitState := .HALF_OPEN } : BreakerState).circuitState
        ≠ CircuitState.OPEN := by intro h; cases h
    exact (executeWithRetryAux_failCount ccfg outcomes time _ hnop rcfg.maxRetries 0 0).1

/-- Counterexample for C3 as stated: a circuit-breaker rejection (state
`OPEN`, reset window not yet elapsed) leaves the failure counter at 2 — it is
not incremented to 3. -/
theorem C3_failure_accounting_counterexample :
    executeWithRetry ⟨3, 1000, 10000, 2⟩ ⟨5, 30000⟩ (fun _ => .failure true)
      (fun _ => 100) ⟨.OPEN, 2, 0⟩ = ⟨false, ⟨.OPEN, 2, 0⟩, 0⟩ ∧
    ¬(executeWithRetry ⟨3, 1000, 10000, 2⟩ ⟨5, 30000⟩ (fun _ => .failure true)
        (fun _ => 100) ⟨.OPEN, 2, 0⟩).state.failureCount = 2 + 1 := by
  exact ⟨by decide, by decide⟩

/-- Witness for C3: exhausting all retries from the fresh `CLOSED` state
(maxRetries 1, every outcome a retryable failure) bumps the counter from 0
to exactly 1. -/
theorem C3_failure_accounting_witness :
    (executeWithRetry ⟨1, 1000, 10000, 2⟩ ⟨5, 30000⟩ (fun _ => .failure true)
      (fun _ => 100) initialBreaker).state.failureCount = initialBreaker.failureCount + 1 :=
  (C3_failure_accounting ⟨1, 1000, 10000, 2⟩ ⟨5, 30000⟩ (fun _ => .failure true)
    (fun _ => 100) initialBreaker).1 (Or.inl rfl) (by decide)

/-! ## C9: `sendGuide` returns a boolean, true only when both sends succeed -/

/-- C9: `sendGuide` returns `true` exactly when the retried text send
returns normally and the retried media send (run against the breaker state
the text send left behind) also returns normally; every failure of either —
retry exhaustion, non-retryable error, or circuit-breaker rejection, all of
which are throws out of `executeWithRetry` — is caught and surfaced as
`false`, never as an exception. -/
theorem C9_sendGuide_spec (rcfg : RetryConfig) (ccfg : CircuitBreakerConfig)
    (phone : String) (guideData : ShippingGuideData) (filePath : String)
    (textOutcomes mediaOutcomes : Nat → Outcome) (textTime mediaTime : Nat → Nat)
    (s : BreakerState) :
    (sendGuide rcfg ccfg phone guideData filePath textOutcomes mediaOutcomes
        textTime mediaTime s).fst = true ↔
      ((executeWithRetry rcfg ccfg textOutcomes textTime s).ok = true ∧
       (executeWithRetry rcfg ccfg mediaOutcomes mediaTime
          (executeWithRetry rcfg ccfg textOutcomes textTime s).state).ok = true) := by
  unfold sendGuide
  cases h : (executeWithRetry rcfg ccfg textOutcomes textTime s).ok <;> simp [h]

end ShipTrack

namespace ShipTrack

/-! ## `queryFirst` lemmas (for C4) -/

theorem queryFirst_pred (pred : OrderRow → Bool) (orders : List OrderRow)
    (o : OrderRow) (h : queryFirst pred orders = some o) :
    pred o = true ∧ o ∈ orders := by
  have hmem : o ∈ (orders.filter pred).mergeSort (fun a b => b.created_at ≤ a.created_at) :=
    List.mem_of_mem_head? h
  have hperm := List.mergeSort_perm (orders.filter pred)
    (fun a b => b.created_at ≤ a.created_at)
  have hf : o ∈ orders.filter pred := hperm.mem_iff.mp hmem
  exact ⟨(List.mem_filter.mp hf).2, (List.mem_filter.mp hf).1⟩

theorem queryFirst_isSome (pred : OrderRow → Bool) (orders : List OrderRow)
    (h : ∃ o, o ∈ orders ∧ pred o = true) : ∃ m, queryFirst pred orders = some m := by
  obtain ⟨o, hm, hp⟩ := h
  have hf : o ∈ orders.filter pred := List.mem_filter.mpr ⟨hm, hp⟩
  have hperm := List.mergeSort_perm (orders.filter pred)
    (fun a b => b.created_at ≤ a.created_at)
  have hms : o ∈ (orders.filter pred).mergeSort (fun a b => b.created_at ≤ a.created_at) :=
    hperm.mem_iff.mpr hf
  cases hl : (orders.filter pred).mergeSort (fun a b => b.created_at ≤ a.created_at) with
  | nil => rw [hl] at hms; cases hms
  | cons x t => exact ⟨x, by simp [queryFirst, hl]⟩

/-! ## C4: resolver tier priority, phone tier first -/

/-- C4: `findCustomer` attempts the phone, name, then address tiers in
strict priority order, each only when its input field is truthy and the
previous tiers were skipped or empty; when the record carries both a phone
and a name and the store holds both a phone-eligible match and a
name-eligible match, the result is the phone tier's hit — an eligible order
whose phone columns contain the last 10 digits of the record's phone — with
confidence 100 and tier `"phone"`. -/
theorem C4_findCustomer_phone_priority (guideData : ShippingGuideData)
    (orders : List OrderRow) (m : CustomerMatch) :
    (truthyOpt guideData.customerPhone = true →
      matchByPhone (guideData.customerPhone.getD "") orders = some m →
      findCustomer guideData orders = some m) ∧
    ((truthyOpt guideData.customerPhone = false ∨
        matchByPhone (guideData.customerPhone.getD "") orders = none) →
      guideData.customerName ≠ "" →
      matchByName guideData.customerName guideData.city orders = some m →
      findCustomer guideData orders = some m) ∧
    ((truthyOpt guideData.customerPhone = false ∨
        matchByPhone (guideData.customerPhone.getD "") orders = none) →
      (guideData.customerName = "" ∨
        matchByName guideData.customerName guideData.city orders = none) →
      guideData.shippingAddress ≠ "" →
      matchByAddress guideData.shippingAddress orders = some m →
      findCustomer guideData orders = some m) ∧
    (truthyOpt guideData.customerPhone = true →
      guideData.customerName ≠ "" →
      (∃ o, o ∈ orders ∧
        phonePred (sanitizePhone (guideData.customerPhone.getD "")) o = true) →
      (∃ o2, o2 ∈ orders ∧
        namePred (firstNameToken guideData.customerName) guideData.city o2 = true) →
      ∃ o, queryFirst (phonePred (sanitizePhone (guideData.customerPhone.getD ""))) orders
            = some o ∧
        phonePred (sanitizePhone (guideData.customerPhone.getD "")) o = true ∧
        o ∈ orders ∧
        findCustomer guideData orders = some (mkMatch o 100 "phone") ∧
        (mkMatch o 100 "phone").confidence = 100 ∧
        (mkMatch o 100 "phone").matchedBy = "phone") := by
  have hbp_none : truthyOpt guideData.customerPhone = false ∨
      matchByPhone (guideData.customerPhone.getD "") orders = none →
      (if truthyOpt guideData.customerPhone then
        matchByPhone (guideData.customerPhone.getD "") orders else none) = none := by
    intro hp
    rcases hp with hp | hp
    · simp [hp]
    · simp [hp]
  refine ⟨?_, ?_, ?_, ?_⟩
  · intro hp hm
    simp [findCustomer, hp, hm]
  · intro hp hn hm
    simp [findCustomer, hbp_none hp, hn, hm]
  · intro hp hn ha hm
    have hbn : (if guideData.customerName ≠ "" then
        matchByName guideData.customerName guideData.city orders else none) = none := by
      rcases hn with hn | hn
      · simp [hn]
      · simp [hn]
    simp [findCustomer, hbp_none hp, hbn, ha, hm]
  · intro hp _ hex _
    obtain ⟨o, ho⟩ := queryFirst_isSome _ orders hex
    have hpo := queryFirst_pred _ orders o ho
    have hm : matchByPhone (guideData.customerPhone.getD "") orders
        = some (mkMatch o 100 "phone") := by
      simp [matchByPhone, ho]
    exact ⟨o, ho, hpo.1, hpo.2, by simp [findCustomer, hp, hm], rfl, rfl⟩

end ShipTrack

namespace ShipTrack

/-- A concrete two-order store for the C4 witness: one order matching the
record's phone, one matching only its name. -/
def witnessPhoneOrder : OrderRow :=
  ⟨1, "ORD-1", "3001234567", "", "Juan Perez", "Calle 1 # 2-3", "confirmed", none, 10⟩

def witnessNameOrder : OrderRow :=
  ⟨2, "ORD-2", "3115551234", "", "Juan Carlos", "Carrera 9", "processing", none, 5⟩

def witnessGuide : ShippingGuideData :=
  ⟨"SV123456789", "Juan Perez", some "573001234567", "", "", "", "Servientrega", ""⟩

/-- Witness for C4: with both orders in the store and the record carrying
both phone and name, resolution returns the phone match at confidence 100. -/
theorem C4_findCustomer_witness :
    ∃ o, queryFirst (phonePred (sanitizePhone (witnessGuide.customerPhone.getD "")))
          [witnessPhoneOrder, witnessNameOrder] = some o ∧
      phonePred (sanitizePhone (witnessGuide.customerPhone.getD "")) o = true ∧
      o ∈ [witnessPhoneOrder, witnessNameOrder] ∧
      findCustomer witnessGuide [witnessPhoneOrder, witnessNameOrder]
        = some (mkMatch o 100 "phone") ∧
      (mkMatch o 100 "phone").confidence = 100 ∧
      (mkMatch o 100 "phone").matchedBy = "phone" :=
  (C4_findCustomer_phone_priority witnessGuide [witnessPhoneOrder, witnessNameOrder]
      ⟨0, "", "", "", "", 0, ""⟩).2.2.2 (by decide) (by decide)
    ⟨witnessPhoneOrder, by simp, by decide⟩
    ⟨witnessNameOrder, by simp, by decide⟩

/-! ## C6: the city scan -/

/-- Modelled from the spec: "accent-insensitive, whole-word match" — the
needle occurs in the haystack with no word character (letter, digit or
underscore) adjacent on either side.  This is the matching discipline the
spec describes for the city scan, stated here to compare with the
substring scan the code performs. -/
def wholeWordOccurs (hay needle : String) : Bool :=
  let h := hay.data
  let n := needle.data
  (List.range (h.length + 1)).any (fun i =>
    decide ((h.drop i).take n.length = n) &&
    (match (h.take i).getLast? with
     | some c => !isWordChar c
     | none => true) &&
    (match (h.drop (i + n.length)).head? with
     | some c => !isWordChar c
     | none => true))

/-- C6 (amended): the city scan walks the reference table in order against
the accent-normalized text and returns the first entry whose accent-normalized
name occurs as a **substring** (`String.includes`) of the normalized text —
word boundaries are not checked, so a city name occurring inside a longer
word still matches; when no entry's normalized name occurs, no city is
reported. -/
theorem C6_cityScan_spec (table : List CityEntry) (text : String) (e : CityEntry) :
    (cityScan table text = some e →
      containsSub (normalizeText text) (normalizeText e.city) = true ∧
      ∃ pre suf, table = pre ++ e :: suf ∧
        ∀ e2 ∈ pre, containsSub (normalizeText text) (normalizeText e2.city) = false) ∧
    ((∀ e2 ∈ table, containsSub (normalizeText text) (normalizeText e2.city) = false) →
      cityScan table text = none) := by
  constructor
  · intro h
    induction table with
    | nil => cases h
    | cons x t ih =>
        by_cases hx : containsSub (normalizeText text) (normalizeText x.city) = true
        · have hex : cityScan (x :: t) text = some x := by
            simp [cityScan, List.find?, hx]
          rw [hex] at h
          cases h
          exact ⟨hx, [], t, rfl, by intro e2 he2; cases he2⟩
        · have hrec : cityScan (x :: t) text = cityScan t text := by
            simp only [cityScan, List.find?]
            rw [Bool.of_not_eq_true hx]
          rw [hrec] at h
          obtain ⟨hc, pre, suf, heq, hall⟩ := ih h
          refine ⟨hc, x :: pre, suf, by rw [heq]; simp, ?_⟩
          intro e2 he2
          cases he2 with
          | head => exact Bool.of_not_eq_true hx
          | tail _ hmem => exact hall e2 hmem
  · intro hall
    induction table with
    | nil => rfl
    | cons x t ih =>
        have hx := hall x (List.mem_cons_self x t)
        have hrec : cityScan (x :: t) text = cityScan t text := by
          simp only [cityScan, List.find?]
          rw [hx]
        rw [hrec]
        exact ih (fun e2 he2 => hall e2 (List.mem_cons_of_mem x he2))

/-- Counterexample for C6 as stated: with the table entry `Bogotá` (the
spec's own end-to-end example city), the text `"XBogotaX"` — where the city
name occurs only inside a longer word — still gets city and department
reported by the scan, though no whole-word occurrence exists. -/
theorem C6_cityScan_counterexample :
    cityScan [⟨"Bogotá", "Cundinamarca"⟩] "XBogotaX" = some ⟨"Bogotá", "Cundinamarca"⟩ ∧
    wholeWordOccurs (normalizeText "XBogotaX") (normalizeText "Bogotá") = false := by
  exact ⟨by decide, by decide⟩

/-- Witness for C6: the first matching entry wins and supplies both fields;
a table whose names never occur yields no city. -/
theorem C6_cityScan_witness :
    (containsSub (normalizeText "Ciudad: Bogotá") (normalizeText "Bogotá") = true ∧
      ∃ pre suf, ([⟨"Medellín", "Antioquia"⟩, ⟨"Bogotá", "Cundinamarca"⟩] : List CityEntry)
          = pre ++ (⟨"Bogotá", "Cundinamarca"⟩ : CityEntry) :: suf ∧
        ∀ e2 ∈ pre, containsSub (normalizeText "Ciudad: Bogotá") (normalizeText e2.city)
          = false) ∧
    cityScan [⟨"Medellín", "Antioquia"⟩] "Ciudad: Bogotá" = none := by
  constructor
  · exact (C6_cityScan_spec [⟨"Medellín", "Antioquia"⟩, ⟨"Bogotá", "Cundinamarca"⟩]
      "Ciudad: Bogotá" ⟨"Bogotá", "Cundinamarca"⟩).1 (by decide)
  · exact (C6_cityScan_spec [⟨"Medellín", "Antioquia"⟩] "Ciudad: Bogotá"
      ⟨"", ""⟩).2 (by decide)

end ShipTrack

namespace ShipTrack

/-! ## C1: the extraction validity gate -/

theorem isSome_map_opt {α β : Type} (f : α → β) (o : Option α) :
    (Option.map f o).isSome = o.isSome := by cases o <;> rfl

/-- C1 (amended): on any text **not** classified as a WhatsApp chat (on chat
texts `extractData` raises the chat-detected signal instead of returning),
extraction returns a record exactly when some tracking pattern matched and a
name or a phone matched; the returned record's tracking number is the token
captured by the first matching tracking pattern, its raw-text excerpt is the
text truncated to at most 1000 characters; in every other case `extractData`
returns null. -/
theorem C1_extract_validity (table : List CityEntry) (text : String)
    (h : isWhatsAppChat text = false) :
    ((∃ r, extractData table text = .record r) ↔
      ((trackingToken trackingPatterns text).isSome = true ∧
        ((reGroup nameRE 1 text).isSome = true ∨ (reGroup phoneRE 2 text).isSome = true))) ∧
    (∀ r, extractData table text = .record r →
      some r.trackingNumber = trackingToken trackingPatterns text ∧
      r.rawText = takeChars 1000 text ∧ r.rawText.length ≤ 1000) ∧
    (¬((trackingToken trackingPatterns text).isSome = true ∧
        ((reGroup nameRE 1 text).isSome = true ∨ (reGroup phoneRE 2 text).isSome = true)) →
      extractData table text = .noData) := by
  have hlen : (takeChars 1000 text).length ≤ 1000 := by
    show (text.data.take 1000).length ≤ 1000
    rw [List.length_take]
    exact Nat.min_le_left _ _
  unfold extractData
  rw [h]
  simp only [Bool.false_eq_true, if_false]
  split
  next htk =>
    refine ⟨⟨?_, ?_⟩, ?_, ?_⟩
    · rintro ⟨r, hr⟩; cases hr
    · rintro ⟨hsome, _⟩; rw [htk] at hsome; exact Bool.noConfusion hsome
    · intro r hr; cases hr
    · intro _; rfl
  next tn htk =>
    split
    next hb =>
      have hb2 : (reGroup nameRE 1 text).isSome = true
          ∨ (reGroup phoneRE 2 text).isSome = true := by
        rw [isSome_map_opt, isSome_map_opt] at hb
        cases hn : (reGroup nameRE 1 text).isSome with
        | true => exact Or.inl rfl
        | false =>
            cases hp : (reGroup phoneRE 2 text).isSome with
            | true => exact Or.inr rfl
            | false => rw [hn, hp] at hb; exact Bool.noConfusion hb
      refine ⟨⟨?_, ?_⟩, ?_, ?_⟩
      · intro _; exact ⟨by rw [htk]; rfl, hb2⟩
      · intro _; exact ⟨_, rfl⟩
      · intro r hr
        injection hr with h2
        subst h2
        exact ⟨by rw [htk], rfl, hlen⟩
      · intro hcon
        exact absurd ⟨by rw [htk]; rfl, hb2⟩ hcon
    next hb =>
      have hb2 : ¬((reGroup nameRE 1 text).isSome = true
          ∨ (reGroup phoneRE 2 text).isSome = true) := by
        intro h2
        apply hb
        rw [isSome_map_opt, isSome_map_opt]
        rcases h2 with h2 | h2
        · rw [h2]; rfl
        · rw [h2, Bool.or_true]
      refine ⟨⟨?_, ?_⟩, ?_, ?_⟩
      · rintro ⟨r, hr⟩; cases hr
      · rintro ⟨_, hor⟩; exact absurd hor hb2
      · intro r hr; cases hr
      · intro _; rfl

end ShipTrack

namespace ShipTrack

/-- Counterexample for C1 as stated: this text has both a matching tracking
pattern (the bare 10-digit run) and a matching phone, yet `extractData`
neither returns a record nor null — it raises the WhatsApp-chat signal
(timestamp + greeting features, no carrier token). -/
theorem C1_extract_counterexample :
    extractData [] "10:30 am buenos dias 3001234567" = .chatDetected ∧
    (trackingToken trackingPatterns "10:30 am buenos dias 3001234567").isSome = true ∧
    (reGroup phoneRE 2 "10:30 am buenos dias 3001234567").isSome = true := by
  exact ⟨by decide, by decide, by decide⟩

/-- Witness for C1: a labelled guide text with a tracking token and a name
(not a WhatsApp chat) yields a record. -/
theorem C1_extract_witness :
    ∃ r, extractData [] "guia: AB12345678 para Juan Perez" = .record r :=
  ((C1_extract_validity [] "guia: AB12345678 para Juan Perez" (by decide)).1).mpr
    ⟨by decide, Or.inl (by decide)⟩

end ShipTrack
